import Mathlib

/-!
Shallow embedding of the inventory-valuation pipeline of `src/main.py`:
the item catalog loader (`load_items_database`), the currency normalizer
(`parse_currency`), the name matcher (`find_item_in_database`), the
scrape orchestrator (`scrape_inventory`) over an explicit page/environment
model, and the duplicate-request suppression around `active_evaluations`.

Machine floats are modelled by `ℚ`: every literal appearing in the claims
(`0.8`, `$50.00`, `3,000,000`, ...) is exactly representable, and the one
float comparison (`shorter/longer >= 0.8` on small integer lengths) agrees
with exact rational comparison.
-/

/-- Python `str.lower()` restricted to ASCII inputs (all inputs here are ASCII). -/
def pyLower (s : String) : String := String.mk (s.toList.map Char.toLower)

/-- Python `str.strip()`: drop leading and trailing whitespace. -/
def pyStrip (s : String) : String :=
  String.mk (((s.toList.dropWhile Char.isWhitespace).reverse.dropWhile Char.isWhitespace).reverse)

/-- Python regex `\w` character class (ASCII fragment): alphanumeric or underscore. -/
def isWordChar (c : Char) : Bool := c.isAlphanum || c == '_'

/-- Python `re.sub(r'[^\w\s]', '', s)`: keep word characters and whitespace. -/
def pyClean (s : String) : String :=
  String.mk (s.toList.filter (fun c => isWordChar c || c.isWhitespace))

/-- Python substring test `p in s` (contiguous). -/
def listIsSub (p : List Char) : List Char → Bool
  | [] => p.isEmpty
  | c :: t => p.isPrefixOf (c :: t) || listIsSub p t

/-- Numeric value of a digit list (most significant first). -/
def digitsVal (ds : List Char) : ℕ := ds.foldl (fun a c => 10 * a + (c.toNat - 48)) 0

/-- Python `float(s)` for strings over digits and `'.'`: at most one dot,
at least one digit; `none` models a `ValueError`. -/
def parseFloatQ (s : List Char) : Option ℚ :=
  let ip := s.takeWhile (fun c => c != '.')
  let rest := s.dropWhile (fun c => c != '.')
  match rest with
  | [] =>
    if ip.isEmpty || ip.any (fun c => !c.isDigit) then none
    else some (digitsVal ip)
  | _ :: fp =>
    if fp.contains '.' then none
    else if ip.any (fun c => !c.isDigit) || fp.any (fun c => !c.isDigit) then none
    else if ip.isEmpty && fp.isEmpty then none
    else some ((digitsVal ip : ℚ) + (digitsVal fp : ℚ) / ((10 : ℚ) ^ fp.length))

/-- Python `re.sub(r'[^\d.]', '', s)`: keep digits and decimal points. -/
def stripNonNumeric (s : String) : String :=
  String.mk (s.toList.filter (fun c => c.isDigit || c == '.'))

/-- `parse_currency` from `src/main.py`: early-return 0.0 on falsy/`N/A`
input, strip non-numeric characters, parse the remainder, 0.0 on failure. -/
def parse_currency (value_str : String) : ℚ :=
  if value_str = "" ∨ value_str = "N/A" then 0
  else if stripNonNumeric value_str = "" then 0
  else
    match parseFloatQ (stripNonNumeric value_str).toList with
    | some q => q
    | none => 0

/-- One record of the `items` array of `items.json`; keys the pipeline
reads may be absent, hence `Option`. -/
structure RawItem where
  name : Option String
  usd : Option String
  coins : Option String
  shards : Option String
deriving DecidableEq, Repr

/-- Python dict insert: overwrite in place if the key exists (keeping its
original insertion position), else append. -/
def dictInsert (l : List (String × RawItem)) (k : String) (v : RawItem) :
    List (String × RawItem) :=
  match l with
  | [] => [(k, v)]
  | (k1, v1) :: t => if k1 = k then (k1, v) :: t else (k1, v1) :: dictInsert t k v

/-- Python dict membership `k in d`. -/
def dictMem (l : List (String × RawItem)) (k : String) : Bool := l.any (fun kv => kv.1 == k)

/-- Python dict lookup `d[k]` (as an option; `some` whenever `dictMem`). -/
def dictGet (l : List (String × RawItem)) (k : String) : Option RawItem :=
  (l.find? (fun kv => kv.1 == k)).map Prod.snd

/-- The lookup-building loop of `load_items_database`: for each item with a
`name`, index it under its lower-cased trimmed name and under the
punctuation-stripped variant of that name. -/
def buildLookup (items : List RawItem) : List (String × RawItem) :=
  items.foldl
    (fun acc it =>
      match it.name with
      | none => acc
      | some n =>
        let lower := pyStrip (pyLower n)
        let acc1 := dictInsert acc lower it
        dictInsert acc1 (pyClean lower) it)
    []

/-- The `"Cute Cowboy"` record of the hard-coded dummy database. -/
def cuteItem : RawItem :=
  { name := some "Cute Cowboy", usd := some "$50.00",
    coins := some "3,000,000 Coins", shards := some "250,000 Shards" }

/-- The `"Antler"` record of the hard-coded dummy database. -/
def antlerItem : RawItem :=
  { name := some "Antler", usd := some "$1.00",
    coins := some "60,000 Coins", shards := some "5,000 Shards" }

/-- The hard-coded dummy database `load_items_database` writes when
`items.json` is absent. -/
def dummyItems : List RawItem := [cuteItem, antlerItem]

/-- The possible states of the catalog source `items.json`. -/
inductive CatalogSource where
  /-- The file does not exist. -/
  | missing
  /-- The file exists but `json.load` raises. -/
  | unreadable
  /-- Valid JSON without a top-level `items` key. -/
  | noItemsKey
  /-- Valid JSON whose `items` key holds the given records. -/
  | items (l : List RawItem)
deriving DecidableEq

/-- `load_items_database` from `src/main.py`: a missing file is replaced by
the dummy database and loaded; a read error or missing `items` key raises
inside the `try`, is caught, and yields the empty dict. -/
def load_items_database : CatalogSource → List (String × RawItem)
  | .missing => buildLookup dummyItems
  | .unreadable => []
  | .noItemsKey => []
  | .items l => buildLookup l

/-- The fuzzy-match loop of `find_item_in_database`: first candidate, in
dict iteration order, with both lengths above 4, length ratio at least 0.8,
and containment one way or the other. -/
def fuzzyScan (q : String) : List (String × RawItem) → Option RawItem
  | [] => none
  | (k, v) :: rest =>
    if 4 < q.length ∧ 4 < k.length then
      if ((8 : ℚ) / 10) ≤ ((min q.length k.length : ℕ) : ℚ) / ((max q.length k.length : ℕ) : ℚ) then
        if listIsSub q.toList k.toList || listIsSub k.toList q.toList then some v
        else fuzzyScan q rest
      else fuzzyScan q rest
    else fuzzyScan q rest

/-- `find_item_in_database` from `src/main.py`: direct match on the
lower-cased stripped name, then on its punctuation-stripped form, then the
fuzzy containment scan, else `none`. -/
def find_item_in_database (item_name : String) (lookup : List (String × RawItem)) :
    Option RawItem :=
  let item_name_lower := pyStrip (pyLower item_name)
  if dictMem lookup item_name_lower then dictGet lookup item_name_lower
  else
    let item_name_clean := pyClean item_name_lower
    if dictMem lookup item_name_clean then dictGet lookup item_name_clean
    else fuzzyScan item_name_clean lookup

/-- Spec-side qualification predicate for the fuzzy step (for the C2
characterization): both strings exceed 4 characters, overlap ratio
`min(len)/max(len)` is at least 0.80, and one contains the other. -/
def fuzzyQualifies (q k : String) : Bool :=
  decide (4 < q.length) && decide (4 < k.length) &&
  decide (((8 : ℚ) / 10) ≤ ((min q.length k.length : ℕ) : ℚ) / ((max q.length k.length : ℕ) : ℚ)) &&
  (listIsSub q.toList k.toList || listIsSub k.toList q.toList)

/-!
## Page/environment model for `scrape_inventory`

The scraper drives a static (per-run) DOM. Every Selenium call that the
source wraps in a `try` is modelled by an explicit failure slot: `Except`
for calls whose exception propagates to the top-level handler, `Option` /
`Bool` flags for calls whose exception is caught by a local handler.
Re-locating a category "from scratch" re-runs the same query against the
same static section list, exactly as the source re-queries the page.
-/

/-- One `.oreuidiv` item element: text of the primary selector
(`.oreuitextblock.cosmetics`) and of the fallback selector
(`.oreuitextblock`); `none` models the selector raising. -/
structure ItemElem where
  primaryText : Option String
  fallbackText : Option String
deriving DecidableEq

/-- One `.black-dropdown.black-zeqa-dropdown` category section. -/
structure CategorySection where
  /-- Text of the `h6` header; `none` models the lookup raising. -/
  header : Option String
  /-- Texts of the `h3` count elements. -/
  counts : List String
  /-- The expand toggle lookup/click raises even after retries. -/
  expandThrows : Bool
  /-- Texts of the options of the filter `select`; `none` models the
  select lookup raising. -/
  filterOpts : Option (List String)
  /-- The item elements enumerated inside the section. -/
  items : List ItemElem
deriving DecidableEq

/-- The loaded profile page. -/
structure Page where
  /-- A textual `not found` / `does not exist` marker is present. -/
  notFoundMarker : Bool
  /-- Category discovery: the section list, or the exception text if the
  triple-retried `find_elements` raises. -/
  discover : Except String (List CategorySection)

/-- The environment of one scrape run: driver launch outcome and
navigation/wait outcome. -/
structure Env where
  /-- `setup_driver()`: `error` models the re-raised launch exception. -/
  launch : Except String Unit
  /-- `driver.get` + body wait: the page, or the exception text. -/
  nav : Except String Page

/-- The bare `except: pass` around the profile-existence probe: any error
of the probed action is swallowed. -/
def swallowErr (x : Except String Unit) : Except String Unit :=
  match x with
  | .error _ => .ok ()
  | .ok _ => .ok ()

/-- The five accepted category header names. -/
def valid_category_names : List String :=
  ["Artifact", "Cape", "Killphrase", "Projectile", "Mount"]

/-- The main-category filter loop: headers (sections whose `h6` lookup
raises are skipped), stripped, kept when among the five known names. -/
def mainNames (sections : List CategorySection) : List String :=
  sections.filterMap
    (fun sec =>
      match sec.header with
      | none => none
      | some h =>
        let n := pyStrip h
        if valid_category_names.contains n then some n else none)

/-- Re-locate a category by header text: first section whose stripped
`h6` text equals the name (sections whose lookup raises are skipped). -/
def relocate (sections : List CategorySection) (name : String) : Option CategorySection :=
  sections.find?
    (fun sec =>
      match sec.header with
      | none => false
      | some h => pyStrip h == name)

/-- The count-search loop: first stripped `h3` text that is nonempty and
contains a `/`. -/
def firstCount (counts : List String) : Option String :=
  (counts.map pyStrip).find? (fun t => !t.isEmpty && t.toList.contains '/')

/-- Python `re.match(r'\[?(\d+)/(\d+)\]?', s)`: from the start of the
string, an optional `[`, digits, `/`, digits; trailing text is ignored. -/
def parseCount (s : List Char) : Option (ℕ × ℕ) :=
  let s1 := match s with
    | '[' :: rest => rest
    | other => other
  let d1 := s1.takeWhile Char.isDigit
  let r1 := s1.dropWhile Char.isDigit
  if d1.isEmpty then none
  else
    match r1 with
    | '/' :: r2 =>
      let d2 := r2.takeWhile Char.isDigit
      if d2.isEmpty then none else some (digitsVal d1, digitsVal d2)
    | _ => none

/-- The owned count a section reports: first count text, parsed. -/
def ownedOf (sec : CategorySection) : Option ℕ :=
  ((firstCount sec.counts).bind (fun t => parseCount t.toList)).map Prod.fst

/-- The `Show Owned` selection attempts: exact visible text
`"Show Owned"`, `"Owned"`, `"show owned"`, else any option whose
lower-cased text contains `"owned"`. -/
def selectOwned (opts : List String) : Bool :=
  opts.contains "Show Owned" || opts.contains "Owned" || opts.contains "show owned" ||
    opts.any (fun o => listIsSub "owned".toList (pyLower o).toList)

/-- The name-extraction attempts for one item element: primary selector,
then fallback selector, text stripped; `none` when both raise. -/
def extractName (e : ItemElem) : Option String :=
  match e.primaryText with
  | some t => some (pyStrip t)
  | none =>
    match e.fallbackText with
    | some t => some (pyStrip t)
    | none => none

/-- One valued inventory item, as appended to `owned_items`. -/
structure ValuedItem where
  name : String
  category : String
  usd : ℚ
  coins : ℚ
  shards : ℚ
deriving DecidableEq

/-- The mutable accumulators of the category loop. -/
structure ScrapeState where
  owned_items : List ValuedItem
  total_usd : ℚ
  total_coins : ℚ
  total_shards : ℚ
  categories_processed : ℕ
deriving DecidableEq

/-- All accumulators start empty/zero. -/
def initState : ScrapeState :=
  { owned_items := [], total_usd := 0, total_coins := 0, total_shards := 0,
    categories_processed := 0 }

/-- One iteration of the per-item loop: extract the name (skip on failure
or empty text), look it up in the database, and on a hit parse the three
currency fields, add them to the running totals and append a
`ValuedItem`; misses contribute nothing. -/
def itemStep (lookup : List (String × RawItem)) (catName : String)
    (st : ScrapeState) (e : ItemElem) : ScrapeState :=
  match extractName e with
  | none => st
  | some item_name =>
    if item_name = "" then st
    else
      match find_item_in_database item_name lookup with
      | none => st
      | some item_data =>
        { owned_items := st.owned_items ++
            [{ name := item_name, category := catName,
               usd := parse_currency (item_data.usd.getD "0"),
               coins := parse_currency (item_data.coins.getD "0"),
               shards := parse_currency (item_data.shards.getD "0") }],
          total_usd := st.total_usd + parse_currency (item_data.usd.getD "0"),
          total_coins := st.total_coins + parse_currency (item_data.coins.getD "0"),
          total_shards := st.total_shards + parse_currency (item_data.shards.getD "0"),
          categories_processed := st.categories_processed }

/-- The per-item loop over the enumerated elements. -/
def processItems (lookup : List (String × RawItem)) (catName : String)
    (elems : List ItemElem) (st : ScrapeState) : ScrapeState :=
  elems.foldl (itemStep lookup catName) st

/-- `categories_processed += 1`. -/
def incProcessed (st : ScrapeState) : ScrapeState :=
  { st with categories_processed := st.categories_processed + 1 }

/-- The body of the category loop for one main-category name: re-locate,
read and parse the count (skip on failure), skip immediately when the
owned count is zero, expand (a raised click exception skips the
category), re-locate, select the owned filter (skip on failure), re-locate
and enumerate items, then count the category as processed. -/
def processCategory (lookup : List (String × RawItem)) (sections : List CategorySection)
    (st : ScrapeState) (category_name : String) : ScrapeState :=
  match relocate sections category_name with
  | none => st
  | some sec =>
    match (firstCount sec.counts).bind (fun t => parseCount t.toList) with
    | none => st
    | some (owned_count, _total_count) =>
      if owned_count = 0 then st
      else if sec.expandThrows then st
      else
        match relocate sections category_name with
        | none => st
        | some sec2 =>
          match sec2.filterOpts with
          | none => st
          | some opts =>
            if selectOwned opts then
              let cosmetic_items :=
                match relocate sections category_name with
                | some sec3 => sec3.items
                | none => []
              incProcessed (processItems lookup category_name cosmetic_items st)
            else st

/-- The fields of a `success=true` result dictionary. -/
structure OkRes where
  ign : String
  items : List ValuedItem
  total_usd : ℚ
  total_coins : ℚ
  total_shards : ℚ
  item_count : ℕ
  categories_processed : ℕ
deriving DecidableEq

/-- A result dictionary of `scrape_inventory`: `ok` is `success=true`
with the aggregate fields, `err` is `success=false` with the error
string and the ign. -/
inductive ScrapeResult where
  | ok (r : OkRes)
  | err (ign : String) (error : String)
deriving DecidableEq

/-- The accumulator state after the whole category loop. -/
def finalState (lookup : List (String × RawItem)) (sections : List CategorySection) :
    ScrapeState :=
  (mainNames sections).foldl (processCategory lookup sections) initState

/-- The `success=true` dictionary built from the final accumulators;
`item_count` is `len(owned_items)`. -/
def mkOk (ign : String) (st : ScrapeState) : OkRes :=
  { ign := ign, items := st.owned_items, total_usd := st.total_usd,
    total_coins := st.total_coins, total_shards := st.total_shards,
    item_count := st.owned_items.length,
    categories_processed := st.categories_processed }

/-- The body of the top-level `try` of `scrape_inventory`: launch, navigate,
probe for the not-found marker (whose exception the bare `except: pass`
swallows), discover categories (raising when none are found), then fold the
category loop and build the success dictionary. -/
def scrape_body (lookup : List (String × RawItem)) (ign : String) (env : Env) :
    Except String OkRes :=
  match env.launch with
  | .error e => .error e
  | .ok _ =>
    match env.nav with
    | .error e => .error e
    | .ok page =>
      match swallowErr
          (if page.notFoundMarker then .error "Player profile not found" else .ok ()) with
      | .error e => .error e
      | .ok _ =>
        match page.discover with
        | .error e => .error e
        | .ok sections =>
          if sections.isEmpty then .error "No cosmetic categories found on profile"
          else .ok (mkOk ign (finalState lookup sections))

/-- `scrape_inventory` from `src/main.py`: the body under the top-level
`except Exception`, which turns any caught exception into the
`success=false` dictionary. -/
def scrape_inventory (lookup : List (String × RawItem)) (ign : String) (env : Env) :
    ScrapeResult :=
  match scrape_body lookup ign env with
  | .ok r => .ok r
  | .error e => .err ign e

/-!
## Duplicate-request suppression (`active_evaluations`)

The inventory command sanitizes the ign, rejects a duplicate in-flight
key, adds the key, runs the scrape/render body, and removes the key in a
`finally` block on every exit path.
-/

/-- How the in-flight set keys a request: `ign.strip()`, then `.lower()`. -/
def evalKey (ign : String) : String := pyLower (pyStrip ign)

/-- Python `set.add` on a list-modelled set. -/
def setAdd (s : List String) (x : String) : List String :=
  if x ∈ s then s else x :: s

/-- Python `set.discard` on a list-modelled set. -/
def setDiscard (s : List String) (x : String) : List String :=
  s.filter (fun y => y != x)

/-- Outcome of the guarded prefix of the inventory command. -/
inductive BeginResult where
  /-- Rejected by the 1–32 character sanitization, before the set is read. -/
  | invalid
  /-- Rejected because the key is already in flight; no session starts. -/
  | duplicate
  /-- Accepted: the key has been added and the scrape may start. -/
  | started (s1 : List String)
deriving DecidableEq

/-- The guarded prefix of the inventory command: sanitize the ign, reject
an in-flight duplicate, otherwise add the key to the set. -/
def requestBegin (s : List String) (ign0 : String) : BeginResult :=
  if pyStrip ign0 = "" ∨ 32 < (pyStrip ign0).length then .invalid
  else if evalKey ign0 ∈ s then .duplicate
  else .started (setAdd s (evalKey ign0))

/-- The `finally` block: discard the key from the set. -/
def requestFinish (s1 : List String) (ign0 : String) : List String :=
  setDiscard s1 (evalKey ign0)

/-- Outcome of a whole inventory request. -/
inductive ReqOutcome where
  | invalid
  | duplicate
  /-- The request ran to completion; `bodyOk` records whether the
  scrape/render body succeeded or raised. -/
  | done (bodyOk : Bool)
deriving DecidableEq

/-- One whole inventory request: the guarded prefix, then (when started)
the body with an arbitrary outcome, then the `finally` removal. -/
def handleRequest (s : List String) (ign0 : String) (bodyOk : Bool) :
    ReqOutcome × List String :=
  match requestBegin s ign0 with
  | .invalid => (.invalid, s)
  | .duplicate => (.duplicate, s)
  | .started s1 => (.done bodyOk, requestFinish s1 ign0)

/-- The running-totals/provenance invariant of the category loop: each
total is the sum of the corresponding field over the accumulated items,
and every accumulated item stems from a successful database match whose
parsed currency fields it carries. -/
def StInv (lookup : List (String × RawItem)) (st : ScrapeState) : Prop :=
  st.total_usd = (st.owned_items.map ValuedItem.usd).sum ∧
  st.total_coins = (st.owned_items.map ValuedItem.coins).sum ∧
  st.total_shards = (st.owned_items.map ValuedItem.shards).sum ∧
  ∀ it ∈ st.owned_items, ∃ d, find_item_in_database it.name lookup = some d ∧
    it.usd = parse_currency (d.usd.getD "0") ∧
    it.coins = parse_currency (d.coins.getD "0") ∧
    it.shards = parse_currency (d.shards.getD "0")

/-- The expected result dictionary of the successful one-Antler run. -/
def antlerOk : OkRes :=
  { ign := "TestPlayer",
    items := [{ name := "Antler", category := "Artifact", usd := 1,
                coins := 60000, shards := 5000 }],
    total_usd := 1, total_coins := 60000, total_shards := 5000,
    item_count := 1, categories_processed := 1 }

example : parse_currency "$50.00" = 50 := by with_unfolding_all rfl
example : parse_currency "3,000,000 Coins" = 3000000 := by with_unfolding_all rfl
example : parse_currency "N/A" = 0 := by with_unfolding_all rfl
example : find_item_in_database "cute  cowboy" (load_items_database (.items [cuteItem])) = none := by with_unfolding_all rfl
example : find_item_in_database "Antler Cap" (load_items_database (.items [antlerItem])) = none := by with_unfolding_all rfl
example : find_item_in_database "Antlers" (load_items_database (.items [antlerItem])) = some antlerItem := by with_unfolding_all rfl
example : find_item_in_database "  CUTE COWBOY  " (load_items_database (.items [cuteItem])) = some cuteItem := by with_unfolding_all rfl
example : find_item_in_database "cute cowboy!" (load_items_database (.items [cuteItem])) = some cuteItem := by with_unfolding_all rfl
example : load_items_database .missing = [("cute cowboy", cuteItem), ("antler", antlerItem)] := by with_unfolding_all rfl

/-- A section whose count reports zero owned items. -/
def zeroSection : CategorySection :=
  { header := some "Artifact", counts := ["0/50"], expandThrows := true,
    filterOpts := none, items := [] }

/-- A one-category page/environment carrying a `not found` marker. -/
def markerEnv : Env :=
  { launch := .ok (), nav := .ok { notFoundMarker := true, discover := .ok [zeroSection] } }

/-- A fully successful one-category environment with one owned Antler. -/
def antlerSection : CategorySection :=
  { header := some "Artifact", counts := ["1/10"], expandThrows := false,
    filterOpts := some ["Show All", "Show Owned"],
    items := [{ primaryText := some "Antler", fallbackText := none }] }

/-- Environment for the successful end-to-end run. -/
def antlerEnv : Env :=
  { launch := .ok (), nav := .ok { notFoundMarker := false, discover := .ok [antlerSection] } }

/-- The Antler-only catalog index. -/
def antlerLookup : List (String × RawItem) := load_items_database (.items [antlerItem])

/-- The Cute-Cowboy-only catalog index. -/
def cuteLookup : List (String × RawItem) := load_items_database (.items [cuteItem])

example :
    scrape_inventory antlerLookup "TestPlayer" antlerEnv =
      .ok { ign := "TestPlayer",
            items := [{ name := "Antler", category := "Artifact", usd := 1,
                        coins := 60000, shards := 5000 }],
            total_usd := 1, total_coins := 60000, total_shards := 5000,
            item_count := 1, categories_processed := 1 } := by
  with_unfolding_all rfl

example :
    scrape_inventory antlerLookup "MissingPlayer" markerEnv =
      .ok { ign := "MissingPlayer", items := [], total_usd := 0, total_coins := 0,
            total_shards := 0, item_count := 0, categories_processed := 0 } := by
  with_unfolding_all rfl

example :
    scrape_inventory antlerLookup "p"
      { launch := .error "driver launch failed", nav := .ok { notFoundMarker := false, discover := .ok [] } } =
      .err "p" "driver launch failed" := by
  with_unfolding_all rfl

example :
    scrape_inventory antlerLookup "p"
      { launch := .ok (), nav := .ok { notFoundMarker := false, discover := .ok [] } } =
      .err "p" "No cosmetic categories found on profile" := by
  with_unfolding_all rfl

example : handleRequest [] "Steve" false = (.done false, []) := by decide
example : requestBegin ["steve"] "STEVE" = .duplicate := by decide

/-!
## Helper lemmas
-/

theorem foldl_preserves {α β : Type} (P : α → Prop) (f : α → β → α)
    (hf : ∀ a b, P a → P (f a b)) :
    ∀ (l : List β) (a : α), P a → P (l.foldl f a)
  | [], _, h => h
  | b :: t, a, h => foldl_preserves P f hf t (f a b) (hf a b h)

theorem foldl_of_id {α β : Type} (f : α → β → α) (l : List β) (a : α)
    (h : ∀ a b, f a b = a) : l.foldl f a = a := by
  induction l generalizing a with
  | nil => rfl
  | cons b t ih => rw [List.foldl_cons, h a b]; exact ih a

theorem swallowErr_ok (x : Except String Unit) : swallowErr x = .ok () := by
  cases x <;> rfl

theorem mem_setAdd (s : List String) (x : String) : x ∈ setAdd s x := by
  unfold setAdd
  split
  · assumption
  · exact List.mem_cons_self x s

theorem setDiscard_setAdd (s : List String) (x : String) (h : x ∉ s) :
    setDiscard (setAdd s x) x = s := by
  unfold setAdd setDiscard
  rw [if_neg h]
  rw [List.filter_cons]
  have hx : (x != x) = false := by simp
  rw [hx]
  simp only [Bool.false_eq_true, if_false]
  induction s with
  | nil => rfl
  | cons a t ih =>
    rw [List.filter_cons]
    have ha : (a != x) = true := by
      simp only [bne_iff_ne, ne_eq]
      intro hax
      exact h (hax ▸ List.mem_cons_self a t)
    rw [ha]
    simp only [if_true]
    rw [ih (fun hm => h (List.mem_cons_of_mem a hm))]

/-!
## C4 — catalog load on missing/malformed sources
-/

/-- C4 counterexample: the claim says a missing catalog source yields an
empty index, but `load_items_database` creates the dummy database and
returns its two-entry index. -/
theorem load_missing_counterexample :
    load_items_database .missing = [("cute cowboy", cuteItem), ("antler", antlerItem)] ∧
    load_items_database .missing ≠ [] := by
  have hload : load_items_database .missing =
      [("cute cowboy", cuteItem), ("antler", antlerItem)] := by
    with_unfolding_all rfl
  refine ⟨hload, ?_⟩
  intro h
  rw [hload] at h
  exact List.noConfusion h

/-- C4 amended: malformed catalog sources (unreadable JSON, or JSON
without the top-level `items` key) load as the empty index without
raising; a missing source is replaced by the generated dummy database,
whose non-empty index is returned. -/
theorem load_malformed_empty :
    load_items_database .unreadable = [] ∧
    load_items_database .noItemsKey = [] ∧
    load_items_database .missing = buildLookup dummyItems ∧
    load_items_database .missing ≠ [] := by
  refine ⟨rfl, rfl, rfl, ?_⟩
  have hload : load_items_database .missing =
      [("cute cowboy", cuteItem), ("antler", antlerItem)] := by
    with_unfolding_all rfl
  intro h
  rw [hload] at h
  exact List.noConfusion h

/-!
## C5 — currency normalizer
-/

/-- C5: `parse_currency` keeps only digits and decimal points and parses
the remainder; `"$50.00"` parses to 50, `"3,000,000 Coins"` to 3000000,
`"N/A"` and `""` to 0; every input whose stripped remainder fails to
parse yields 0, and the function is total (never raises). -/
theorem parse_currency_spec :
    parse_currency "$50.00" = 50 ∧
    parse_currency "3,000,000 Coins" = 3000000 ∧
    parse_currency "N/A" = 0 ∧
    parse_currency "" = 0 ∧
    ∀ s : String, parse_currency s = (parseFloatQ (stripNonNumeric s).toList).getD 0 := by
  refine ⟨by with_unfolding_all rfl, by with_unfolding_all rfl,
          by with_unfolding_all rfl, by with_unfolding_all rfl, ?_⟩
  intro s
  rw [parse_currency]
  by_cases h0 : s = "" ∨ s = "N/A"
  · rw [if_pos h0]
    rcases h0 with h | h <;> subst h <;> with_unfolding_all rfl
  · rw [if_neg h0]
    by_cases hcl : stripNonNumeric s = ""
    · rw [if_pos hcl, hcl]
      rfl
    · rw [if_neg hcl]
      cases hp : parseFloatQ (stripNonNumeric s).toList <;> rfl

/-!
## C2 — matcher resolution order
-/

theorem fuzzyQualifies_iff (q k : String) :
    fuzzyQualifies q k = true ↔
      4 < q.length ∧ 4 < k.length ∧
      ((8 : ℚ) / 10) ≤ ((min q.length k.length : ℕ) : ℚ) / ((max q.length k.length : ℕ) : ℚ) ∧
      (listIsSub q.toList k.toList || listIsSub k.toList q.toList) = true := by
  simp only [fuzzyQualifies, Bool.and_eq_true, decide_eq_true_eq, and_assoc]

theorem fuzzyScan_eq_find (q : String) :
    ∀ l : List (String × RawItem),
      fuzzyScan q l = (l.find? (fun kv => fuzzyQualifies q kv.1)).map Prod.snd := by
  intro l
  induction l with
  | nil => rfl
  | cons kv rest ih =>
    obtain ⟨k, v⟩ := kv
    rw [fuzzyScan]
    by_cases h1 : 4 < q.length ∧ 4 < k.length
    · rw [if_pos h1]
      by_cases h2 : ((8 : ℚ) / 10) ≤ ((min q.length k.length : ℕ) : ℚ) / ((max q.length k.length : ℕ) : ℚ)
      · rw [if_pos h2]
        by_cases h3 : (listIsSub q.toList k.toList || listIsSub k.toList q.toList) = true
        · rw [if_pos h3]
          rw [@List.find?_cons_of_pos _ (fun kv => fuzzyQualifies q kv.1) (k, v) rest
            ((fuzzyQualifies_iff q k).mpr ⟨h1.1, h1.2, h2, h3⟩)]
          rfl
        · rw [if_neg h3, ih,
            @List.find?_cons_of_neg _ (fun kv => fuzzyQualifies q kv.1) (k, v) rest
              (fun hq => h3 ((fuzzyQualifies_iff q k).mp hq).2.2.2)]
      · rw [if_neg h2, ih,
          @List.find?_cons_of_neg _ (fun kv => fuzzyQualifies q kv.1) (k, v) rest
            (fun hq => h2 ((fuzzyQualifies_iff q k).mp hq).2.2.1)]
    · rw [if_neg h1, ih,
        @List.find?_cons_of_neg _ (fun kv => fuzzyQualifies q kv.1) (k, v) rest
          (fun hq => h1 ⟨((fuzzyQualifies_iff q k).mp hq).1, ((fuzzyQualifies_iff q k).mp hq).2.1⟩)]

/-- C2: `find_item_in_database` resolves in order: exact match on the
lower-cased trimmed name, then exact match on the normalized
(alphanumeric-plus-space) name, then the containment fuzzy step, which
returns the first candidate in index iteration order qualifying by the
length guard (> 4 both), the overlap ratio `min/max ≥ 0.8` and mutual
containment; with no match the result is `none`. -/
theorem find_item_resolution_order (item_name : String) (lookup : List (String × RawItem)) :
    find_item_in_database item_name lookup =
      (if dictMem lookup (pyStrip (pyLower item_name)) then
        dictGet lookup (pyStrip (pyLower item_name))
      else if dictMem lookup (pyClean (pyStrip (pyLower item_name))) then
        dictGet lookup (pyClean (pyStrip (pyLower item_name)))
      else
        (lookup.find?
          (fun kv => fuzzyQualifies (pyClean (pyStrip (pyLower item_name))) kv.1)).map
          Prod.snd) := by
  rw [find_item_in_database]
  by_cases h1 : dictMem lookup (pyStrip (pyLower item_name))
  · simp only [h1, if_true]
  · simp only [h1, Bool.false_eq_true, if_false]
    by_cases h2 : dictMem lookup (pyClean (pyStrip (pyLower item_name)))
    · simp only [h2, if_true]
    · simp only [h2, Bool.false_eq_true, if_false]
      exact fuzzyScan_eq_find _ lookup

/-!
## C6 — double-space query
-/

/-- C6 counterexample: with `"Cute Cowboy"` in the catalog, the query
`"cute  cowboy"` (two internal spaces) is NOT resolved: normalization
strips punctuation but does not collapse internal whitespace, and neither
string contains the other, so every matching step fails. -/
theorem matcher_double_space_counterexample :
    find_item_in_database "cute  cowboy" cuteLookup = none := by
  with_unfolding_all rfl

/-- C6 amended: queries differing from `"Cute Cowboy"` only in case,
surrounding whitespace or punctuation resolve (exact or normalized
match), but `"cute  cowboy"` with two internal spaces returns `none`. -/
theorem matcher_cute_cowboy_amended :
    find_item_in_database "  CUTE COWBOY  " cuteLookup = some cuteItem ∧
    find_item_in_database "cute cowboy!" cuteLookup = some cuteItem ∧
    find_item_in_database "cute  cowboy" cuteLookup = none := by
  refine ⟨?_, ?_, ?_⟩ <;> with_unfolding_all rfl

/-!
## C7 — fuzzy-match threshold
-/

/-- C7 counterexample: with `"Antler"` in the catalog, the query
`"Antler Cap"` does NOT fuzzy-match: the overlap ratio is 6/10 = 0.6,
below the 0.8 threshold, although one string contains the other. -/
theorem matcher_antler_cap_counterexample :
    find_item_in_database "Antler Cap" antlerLookup = none := by
  with_unfolding_all rfl

/-- C7 amended: with `"Antler"` in the catalog, `"Antlers"` fuzzy-matches
(both above 4 characters, ratio 6/7 ≥ 0.8, containment) while
`"Antler Cap"` does not (ratio 0.6 < 0.8); the fuzzy step never fires
when the normalized query has at most 4 characters, and any fuzzy hit
comes from a candidate key with more than 4 characters, against a query
with more than 4 characters. -/
theorem matcher_fuzzy_amended :
    find_item_in_database "Antlers" antlerLookup = some antlerItem ∧
    find_item_in_database "Antler Cap" antlerLookup = none ∧
    (∀ (q : String) (l : List (String × RawItem)), q.length ≤ 4 → fuzzyScan q l = none) ∧
    (∀ (q : String) (l : List (String × RawItem)) (v : RawItem),
      fuzzyScan q l = some v → ∃ k, (k, v) ∈ l ∧ 4 < q.length ∧ 4 < k.length) := by
  refine ⟨by with_unfolding_all rfl, by with_unfolding_all rfl, ?_, ?_⟩
  · intro q l hq
    induction l with
    | nil => rfl
    | cons kv rest ih =>
      obtain ⟨k, v⟩ := kv
      rw [fuzzyScan]
      rw [if_neg (by omega : ¬(4 < q.length ∧ 4 < k.length))]
      exact ih
  · intro q l v h
    induction l with
    | nil => exact absurd h (by simp [fuzzyScan])
    | cons kv rest ih =>
      obtain ⟨k, v1⟩ := kv
      rw [fuzzyScan] at h
      by_cases h1 : 4 < q.length ∧ 4 < k.length
      · rw [if_pos h1] at h
        by_cases h2 : ((8 : ℚ) / 10) ≤ ((min q.length k.length : ℕ) : ℚ) / ((max q.length k.length : ℕ) : ℚ)
        · rw [if_pos h2] at h
          by_cases h3 : (listIsSub q.toList k.toList || listIsSub k.toList q.toList) = true
          · rw [if_pos h3] at h
            refine ⟨k, ?_, h1.1, h1.2⟩
            cases h
            exact List.mem_cons_self _ _
          · rw [if_neg h3] at h
            obtain ⟨k1, hmem, hql, hkl⟩ := ih h
            exact ⟨k1, List.mem_cons_of_mem _ hmem, hql, hkl⟩
        · rw [if_neg h2] at h
          obtain ⟨k1, hmem, hql, hkl⟩ := ih h
          exact ⟨k1, List.mem_cons_of_mem _ hmem, hql, hkl⟩
      · rw [if_neg h1] at h
        obtain ⟨k1, hmem, hql, hkl⟩ := ih h
        exact ⟨k1, List.mem_cons_of_mem _ hmem, hql, hkl⟩

/-- Witness for the quantified parts of the C7 amendment: a 4-character
query never fuzzy-matches even against an identical 4-character key, and
the concrete hit `"antlers"`/`"antler"` comes from lengths 7 and 6. -/
theorem matcher_fuzzy_amended_witness :
    fuzzyScan "abcd" [("abcd", antlerItem)] = none ∧
    (∃ k, (k, antlerItem) ∈ [("antler", antlerItem)] ∧
      4 < ("antlers" : String).length ∧ 4 < k.length) := by
  refine ⟨matcher_fuzzy_amended.2.2.1 "abcd" [("abcd", antlerItem)] (by decide), ?_⟩
  exact matcher_fuzzy_amended.2.2.2 "antlers" [("antler", antlerItem)] antlerItem
    (by with_unfolding_all rfl)

/-!
## Invariant lemmas for the category loop
-/

theorem itemStep_inv (lookup : List (String × RawItem)) (catName : String)
    (st : ScrapeState) (e : ItemElem) (h : StInv lookup st) :
    StInv lookup (itemStep lookup catName st e) := by
  unfold itemStep
  split
  · exact h
  split
  · exact h
  split
  · exact h
  rename_i item_name hext hnm item_data hfind
  obtain ⟨hu, hc, hs, hprov⟩ := h
  refine ⟨?_, ?_, ?_, ?_⟩
  · dsimp only
    simp only [List.map_append, List.sum_append, List.map_cons, List.map_nil,
      List.sum_cons, List.sum_nil, add_zero]
    rw [hu]
  · dsimp only
    simp only [List.map_append, List.sum_append, List.map_cons, List.map_nil,
      List.sum_cons, List.sum_nil, add_zero]
    rw [hc]
  · dsimp only
    simp only [List.map_append, List.sum_append, List.map_cons, List.map_nil,
      List.sum_cons, List.sum_nil, add_zero]
    rw [hs]
  · intro it hit
    rcases List.mem_append.mp hit with hold | hnew
    · exact hprov it hold
    · rw [List.mem_singleton] at hnew
      subst hnew
      exact ⟨item_data, hfind, rfl, rfl, rfl⟩

theorem processItems_inv (lookup : List (String × RawItem)) (catName : String)
    (elems : List ItemElem) (st : ScrapeState) (h : StInv lookup st) :
    StInv lookup (processItems lookup catName elems st) :=
  foldl_preserves (StInv lookup) (itemStep lookup catName)
    (fun a b ha => itemStep_inv lookup catName a b ha) elems st h

theorem incProcessed_inv (lookup : List (String × RawItem)) (st : ScrapeState)
    (h : StInv lookup st) : StInv lookup (incProcessed st) := h

theorem processCategory_inv (lookup : List (String × RawItem))
    (sections : List CategorySection) (st : ScrapeState) (name : String)
    (h : StInv lookup st) : StInv lookup (processCategory lookup sections st name) := by
  unfold processCategory
  split
  · exact h
  split
  · exact h
  split
  · exact h
  split
  · exact h
  split
  · exact h
  split
  · exact h
  split
  · exact incProcessed_inv lookup _ (processItems_inv lookup name _ st h)
  · exact h

theorem finalState_inv (lookup : List (String × RawItem))
    (sections : List CategorySection) : StInv lookup (finalState lookup sections) := by
  unfold finalState
  apply foldl_preserves (StInv lookup) (processCategory lookup sections)
    (fun a b ha => processCategory_inv lookup sections a b ha)
  exact ⟨rfl, rfl, rfl, fun it hit => absurd hit (List.not_mem_nil it)⟩

theorem scrape_body_ok_inv {lookup : List (String × RawItem)} {ign : String}
    {env : Env} {r : OkRes} (h : scrape_body lookup ign env = .ok r) :
    ∃ sections, r = mkOk ign (finalState lookup sections) := by
  unfold scrape_body at h
  split at h
  · exact absurd h (by simp)
  split at h
  · exact absurd h (by simp)
  split at h
  · exact absurd h (by simp)
  split at h
  · exact absurd h (by simp)
  rename_i sections heq
  split at h
  · exact absurd h (by simp)
  injection h with h
  exact ⟨sections, h.symm⟩

/-- Evaluation of `scrape_inventory` against a well-launched, well-navigated
page with a successfully discovered non-empty section list. -/
theorem scrape_inventory_okEnv (lookup : List (String × RawItem)) (ign : String)
    (marker : Bool) (sections : List CategorySection)
    (hie : sections.isEmpty = false) :
    scrape_inventory lookup ign
        { launch := .ok (), nav := .ok { notFoundMarker := marker, discover := .ok sections } } =
      .ok (mkOk ign (finalState lookup sections)) := by
  unfold scrape_inventory scrape_body
  cases marker <;> simp [swallowErr, hie]

/-!
## C1 — structured results, no escaping exceptions
-/

/-- C1: for every player identifier and environment (covering driver
launch failure, navigation failure and category-discovery failure),
`scrape_inventory` returns a structured dictionary: either `success=true`
with all aggregate fields and the input ign, or `success=false` with an
error string and the input ign; no exception propagates. -/
theorem scrape_inventory_structured (lookup : List (String × RawItem)) (ign : String)
    (env : Env) :
    (∃ r : OkRes, scrape_inventory lookup ign env = .ok r ∧ r.ign = ign) ∨
    (∃ e : String, scrape_inventory lookup ign env = .err ign e) := by
  unfold scrape_inventory
  cases hb : scrape_body lookup ign env with
  | ok r =>
    left
    refine ⟨r, rfl, ?_⟩
    obtain ⟨sections, rfl⟩ := scrape_body_ok_inv hb
    rfl
  | error e =>
    right
    exact ⟨e, rfl⟩

/-!
## C3 — the "not found" marker is swallowed (code bug)
-/

/-- C3, evaluated at the failing input: the result of `scrape_inventory`
never depends on the presence of the `not found` page marker, because the
internal `Player profile not found` exception is raised inside the bare
`except: pass` block that was meant to guard only the probe; concretely, a
marked page still yields `success=true` instead of the claimed
`success=false` with a descriptive error. -/
theorem scrape_ignores_not_found_marker :
    (∀ (lookup : List (String × RawItem)) (ign : String) (marker : Bool)
        (sections : List CategorySection),
      scrape_inventory lookup ign
          { launch := .ok (), nav := .ok { notFoundMarker := marker, discover := .ok sections } } =
        scrape_inventory lookup ign
          { launch := .ok (), nav := .ok { notFoundMarker := false, discover := .ok sections } }) ∧
    scrape_inventory antlerLookup "MissingPlayer" markerEnv =
      .ok { ign := "MissingPlayer", items := [], total_usd := 0, total_coins := 0,
            total_shards := 0, item_count := 0, categories_processed := 0 } := by
  constructor
  · intro lookup ign marker sections
    unfold scrape_inventory scrape_body
    cases marker <;> rfl
  · with_unfolding_all rfl

/-!
## C8 — zero-owned categories are skipped
-/

/-- C8: a category whose parsed count reports 0 owned items leaves the
whole accumulator state unchanged — regardless of whether expanding or
filtering would fail — so it is neither expanded nor counted in
`categories_processed`; consequently a page whose every category reports
0 owned yields `success=true` with `item_count=0` and
`categories_processed=0`. -/
theorem zero_owned_skip (lookup : List (String × RawItem)) (ign : String)
    (marker : Bool) (sections : List CategorySection)
    (hne : sections ≠ [])
    (hzero : ∀ sec ∈ sections, ownedOf sec = some 0) :
    (∀ (st : ScrapeState) (name : String), processCategory lookup sections st name = st) ∧
    scrape_inventory lookup ign
        { launch := .ok (), nav := .ok { notFoundMarker := marker, discover := .ok sections } } =
      .ok { ign := ign, items := [], total_usd := 0, total_coins := 0, total_shards := 0,
            item_count := 0, categories_processed := 0 } := by
  have hskip : ∀ (st : ScrapeState) (name : String),
      processCategory lookup sections st name = st := by
    intro st name
    unfold processCategory
    split
    · rfl
    rename_i sec hrel
    split
    · rfl
    rename_i owned_count total_count hbind
    have h0 := hzero sec (List.mem_of_find?_eq_some hrel)
    unfold ownedOf at h0
    rw [hbind] at h0
    simp only [Option.map_some', Option.some.injEq] at h0
    rw [if_pos h0]
  refine ⟨hskip, ?_⟩
  have hie : sections.isEmpty = false := by
    cases sections with
    | nil => exact absurd rfl hne
    | cons a t => rfl
  rw [scrape_inventory_okEnv lookup ign marker sections hie]
  have hfs : finalState lookup sections = initState := by
    unfold finalState
    exact foldl_of_id _ _ _ hskip
  rw [hfs]
  rfl

/-- Witness for C8 at a concrete all-zero page. -/
theorem zero_owned_skip_witness :
    (∀ sec ∈ [zeroSection], ownedOf sec = some 0) ∧
    scrape_inventory antlerLookup "ZeroPlayer"
        { launch := .ok (), nav := .ok { notFoundMarker := false, discover := .ok [zeroSection] } } =
      .ok { ign := "ZeroPlayer", items := [], total_usd := 0, total_coins := 0,
            total_shards := 0, item_count := 0, categories_processed := 0 } := by
  have hz : ∀ sec ∈ [zeroSection], ownedOf sec = some 0 := by
    intro sec hsec
    rw [List.mem_singleton] at hsec
    subst hsec
    decide
  exact ⟨hz, (zero_owned_skip antlerLookup "ZeroPlayer" false [zeroSection]
    (by simp) hz).2⟩

/-!
## C10 — aggregation invariant of successful results
-/

/-- C10: every `success=true` result has `item_count` equal to the length
of `items`, each total equal to the sum of the corresponding per-item
field, and every listed item stems from a successful catalog match whose
parsed currency fields it carries (unmatched items appear nowhere). -/
theorem success_aggregation_invariant (lookup : List (String × RawItem)) (ign : String)
    (env : Env) (r : OkRes) (h : scrape_inventory lookup ign env = .ok r) :
    r.item_count = r.items.length ∧
    r.total_usd = (r.items.map ValuedItem.usd).sum ∧
    r.total_coins = (r.items.map ValuedItem.coins).sum ∧
    r.total_shards = (r.items.map ValuedItem.shards).sum ∧
    ∀ it ∈ r.items, ∃ d, find_item_in_database it.name lookup = some d ∧
      it.usd = parse_currency (d.usd.getD "0") ∧
      it.coins = parse_currency (d.coins.getD "0") ∧
      it.shards = parse_currency (d.shards.getD "0") := by
  unfold scrape_inventory at h
  cases hb : scrape_body lookup ign env with
  | error e =>
    rw [hb] at h
    have h2 : ScrapeResult.err ign e = ScrapeResult.ok r := h
    exact absurd h2 (by simp)
  | ok r0 =>
    rw [hb] at h
    have h2 : ScrapeResult.ok r0 = ScrapeResult.ok r := h
    injection h2 with h2
    subst h2
    obtain ⟨sections, rfl⟩ := scrape_body_ok_inv hb
    obtain ⟨hu, hc, hs, hprov⟩ := finalState_inv lookup sections
    exact ⟨rfl, hu, hc, hs, hprov⟩

/-- Witness for C10 at a concrete successful scrape with one matched item. -/
theorem success_aggregation_invariant_witness :
    scrape_inventory antlerLookup "TestPlayer" antlerEnv = .ok antlerOk ∧
    (antlerOk.item_count = antlerOk.items.length ∧
     antlerOk.total_usd = (antlerOk.items.map ValuedItem.usd).sum ∧
     antlerOk.total_coins = (antlerOk.items.map ValuedItem.coins).sum ∧
     antlerOk.total_shards = (antlerOk.items.map ValuedItem.shards).sum ∧
     ∀ it ∈ antlerOk.items, ∃ d, find_item_in_database it.name antlerLookup = some d ∧
       it.usd = parse_currency (d.usd.getD "0") ∧
       it.coins = parse_currency (d.coins.getD "0") ∧
       it.shards = parse_currency (d.shards.getD "0")) :=
  have hscrape : scrape_inventory antlerLookup "TestPlayer" antlerEnv = .ok antlerOk := by
    with_unfolding_all rfl
  ⟨hscrape, success_aggregation_invariant antlerLookup "TestPlayer" antlerEnv antlerOk hscrape⟩

/-!
## C9 — duplicate-request suppression
-/

/-- C9: the in-flight set is keyed by the lower-cased trimmed identifier;
an accepted request adds its key before the scrape starts, any concurrent
request whose key coincides (case-insensitively) is rejected as a
duplicate without reaching the scrape, the key is removed on every exit
path (the body outcome `bodyOk` is arbitrary), and once the request
completes the same identifier is accepted again. -/
theorem duplicate_suppression (s : List String) (ign : String) (bodyOk : Bool)
    (hne : pyStrip ign ≠ "") (hlen : (pyStrip ign).length ≤ 32)
    (hnotin : evalKey ign ∉ s) :
    requestBegin s ign = .started (setAdd s (evalKey ign)) ∧
    evalKey ign ∈ setAdd s (evalKey ign) ∧
    (∀ ign2 : String, evalKey ign2 = evalKey ign → pyStrip ign2 ≠ "" →
      (pyStrip ign2).length ≤ 32 →
      requestBegin (setAdd s (evalKey ign)) ign2 = .duplicate) ∧
    (handleRequest s ign bodyOk).1 = .done bodyOk ∧
    (handleRequest s ign bodyOk).2 = s ∧
    requestBegin ((handleRequest s ign bodyOk).2) ign = .started (setAdd s (evalKey ign)) := by
  have hcond : ¬(pyStrip ign = "" ∨ 32 < (pyStrip ign).length) := by
    push_neg
    exact ⟨hne, by omega⟩
  have hbegin : requestBegin s ign = .started (setAdd s (evalKey ign)) := by
    rw [requestBegin, if_neg hcond, if_neg hnotin]
  have hhandle : handleRequest s ign bodyOk =
      (.done bodyOk, requestFinish (setAdd s (evalKey ign)) ign) := by
    rw [handleRequest, hbegin]
  have hfin : requestFinish (setAdd s (evalKey ign)) ign = s := by
    rw [requestFinish]
    exact setDiscard_setAdd s _ hnotin
  refine ⟨hbegin, mem_setAdd s _, ?_, ?_, ?_, ?_⟩
  · intro ign2 hkey hne2 hlen2
    have hcond2 : ¬(pyStrip ign2 = "" ∨ 32 < (pyStrip ign2).length) := by
      push_neg
      exact ⟨hne2, by omega⟩
    rw [requestBegin, if_neg hcond2,
      if_pos (by rw [hkey]; exact mem_setAdd s (evalKey ign))]
  · rw [hhandle]
  · rw [hhandle]
    exact hfin
  · rw [hhandle]
    dsimp only
    rw [hfin]
    exact hbegin

/-- Witness for C9: `"Steve"` is accepted into an empty set, a concurrent
`"STEVE"` is rejected as a duplicate, and the completed request (with a
failing body) leaves the set empty again. -/
theorem duplicate_suppression_witness :
    requestBegin [] "Steve" = .started ["steve"] ∧
    requestBegin ["steve"] "STEVE" = .duplicate ∧
    handleRequest [] "Steve" false = (.done false, []) := by
  have h := duplicate_suppression [] "Steve" false (by decide) (by decide) (by decide)
  refine ⟨h.1, h.2.2.1 "STEVE" (by decide) (by decide) (by decide), ?_⟩
  exact Prod.ext_iff.mpr ⟨h.2.2.2.1, h.2.2.2.2.1⟩
